import Mathlib

/-
Verification of the images storage engine (storage_images.go) of the
deployments repository. The MongoDB collection is modelled as a list of
documents inside a StorageState; an mgo session call that can fail with an
infrastructure error is modelled by an injected optional failure (dbFail):
when dbFail is some e, the single database round trip of the operation
returns the error e instead of its pure result. Go errors are modelled by
their message string, because the engine itself compares message strings
to detect the not-found condition. Each operation additionally returns the
list of events it performed (validation calls and database calls, in
order), so that claims about what happens before any database call are
statable.
-/

namespace Images

/-- GoError models a Go error value by its message string, which is what
the engine inspects. -/
structure GoError where
  msg : String
deriving DecidableEq, Repr

/-- Message of mgo.ErrNotFound. -/
def mgoErrNotFound : GoError := ⟨"not found"⟩

def ErrStorageInvalidID : GoError := ⟨"Invalid id"⟩

def ErrStorageInvalidVersion : GoError := ⟨"Invalid version"⟩

def ErrStorageInvalidModel : GoError := ⟨"Invalid model"⟩

def ErrStorageInvalidImage : GoError := ⟨"Invalid image"⟩

/-- Error produced by the database on a unique-index violation. -/
def dupKeyErr : GoError := ⟨"E11000 duplicate key error"⟩

def StorageKeySoftwareImageModel : String := "softwareimageconstructor.model"

def StorageKeySoftwareImageName : String := "softwareimageconstructor.name"

def StorageKeySoftwareImageId : String := "_id"

def IndexUniqeNameVersionStr : String := "uniqueNameVersionIndex"

def DatabaseName : String := "deployment_service"

def CollectionImages : String := "images"

/-- govalidator.IsNull: true iff the string has length zero. -/
def IsNull (s : String) : Bool := s.isEmpty

/-- Modelled from the spec: the natural-key part of the entity, an
application name+version string and a target device model string; the
entity definition is not among the provided sources. -/
structure SoftwareImageConstructor where
  name : String
  model : String
deriving DecidableEq, Repr

/-- Modelled from the spec: the SoftwareImage entity, with an identifier
pointer (Option models a Go nil pointer), the natural key, and the
modification timestamp; the entity definition is not among the provided
sources. -/
structure SoftwareImage where
  id : Option String
  softwareimageconstructor : SoftwareImageConstructor
  modified : Option Nat
deriving DecidableEq, Repr

/-- Modelled from the spec: Validate fails when a natural-key field is
empty, returning a distinct validation error, and succeeds otherwise. -/
def Validate (image : SoftwareImage) : Option GoError :=
  if IsNull image.softwareimageconstructor.name then
    some ⟨"name: non zero value required"⟩
  else if IsNull image.softwareimageconstructor.model then
    some ⟨"model: non zero value required"⟩
  else
    none

/-- Modelled from the spec: SetModified sets the modification timestamp of
the entity; time is modelled as a natural number. -/
def SetModified (image : SoftwareImage) (t : Nat) : SoftwareImage :=
  { image with modified := some t }

/-- An mgo.Index value, with the fields the engine sets. -/
structure MgoIndex where
  key : List String
  unique : Bool
  name : String
  background : Bool
deriving DecidableEq, Repr

/-- State of the database: the documents of the images collection and the
indexes ensured on it. -/
structure StorageState where
  images : List SoftwareImage
  indexes : List MgoIndex
deriving DecidableEq, Repr

/-- One observable step of an operation: an entity validation call or a
database round trip. -/
inductive Event where
  | validateCall
  | dbFindId (id : String)
  | dbFind (version model : String)
  | dbInsert (image : SoftwareImage)
  | dbUpdateId (id : String) (image : SoftwareImage)
  | dbRemoveId (id : String)
  | dbEnsureIndex (index : MgoIndex)
  | dbFindAll
deriving DecidableEq, Repr

def Event.isDb : Event → Bool
  | .validateCall => false
  | _ => true

/-- Outcome of a database round trip: the injected infrastructure failure
when present, the pure result otherwise. -/
def dbResult (dbFail : Option GoError) (r : Except GoError α) : Except GoError α :=
  match dbFail with
  | some e => .error e
  | none => r

/-- FindId(id).One: the first document whose identifier equals id, or
mgo.ErrNotFound. -/
def findIdResult (s : StorageState) (id : String) : Except GoError SoftwareImage :=
  match s.images.find? (fun d => d.id == some id) with
  | some d => .ok d
  | none => .error mgoErrNotFound

/-- Find(query).One for the natural-key query: the first document whose
name and model fields equal the given values, or mgo.ErrNotFound. -/
def findNameModelResult (s : StorageState) (version model : String) :
    Except GoError SoftwareImage :=
  match s.images.find? (fun d =>
      d.softwareimageconstructor.name == version &&
      d.softwareimageconstructor.model == model) with
  | some d => .ok d
  | none => .error mgoErrNotFound

/-- Unique composite index on the name and model keys, as constructed in
IndexStorage. -/
def uniqueNameVersionIndex : MgoIndex :=
  { key := [StorageKeySoftwareImageName, StorageKeySoftwareImageModel]
    unique := true
    name := IndexUniqeNameVersionStr
    background := false }

/-- Insert assigns a fresh object id when the document carries none. -/
def withAssignedId (s : StorageState) (image : SoftwareImage) : SoftwareImage :=
  match image.id with
  | some _ => image
  | none => { image with id := some (String.append "objectid" (toString s.images.length)) }

/-- Collection insert: rejected with a duplicate-key error when the unique
name-model index is present and a stored document shares the natural key;
appended otherwise. -/
def insertResult (s : StorageState) (image : SoftwareImage) :
    Except GoError StorageState :=
  let doc := withAssignedId s image
  if uniqueNameVersionIndex ∈ s.indexes ∧
      s.images.any (fun d =>
        d.softwareimageconstructor.name == doc.softwareimageconstructor.name &&
        d.softwareimageconstructor.model == doc.softwareimageconstructor.model) = true then
    .error dupKeyErr
  else
    .ok { s with images := s.images ++ [doc] }

/-- UpdateId: replaces the document with the given identifier, keeping the
identifier, or fails with mgo.ErrNotFound when no document has it. -/
def updateIdResult (s : StorageState) (id : String) (image : SoftwareImage) :
    Except GoError StorageState :=
  if s.images.any (fun d => d.id == some id) then
    .ok { s with images := s.images.map (fun d =>
      if d.id == some id then { image with id := some id } else d) }
  else
    .error mgoErrNotFound

/-- RemoveId: removes the document with the given identifier, or fails
with mgo.ErrNotFound when no document has it. -/
def removeIdResult (s : StorageState) (id : String) : Except GoError StorageState :=
  if s.images.any (fun d => d.id == some id) then
    .ok { s with images := s.images.eraseP (fun d => d.id == some id) }
  else
    .error mgoErrNotFound

/-- EnsureIndex: a no-op when the same index is already ensured, records
the index otherwise. -/
def ensureIndexResult (s : StorageState) (index : MgoIndex) :
    Except GoError StorageState :=
  if index ∈ s.indexes then .ok s
  else .ok { s with indexes := s.indexes ++ [index] }

/-- IndexStorage: ensures the unique name-model index, propagating any
failure of the round trip. -/
def IndexStorage (s : StorageState) (dbFail : Option GoError) :
    Option GoError × StorageState × List Event :=
  match dbResult dbFail (ensureIndexResult s uniqueNameVersionIndex) with
  | .error e => (some e, s, [.dbEnsureIndex uniqueNameVersionIndex])
  | .ok s2 => (none, s2, [.dbEnsureIndex uniqueNameVersionIndex])

/-- Exists: guard on the id, then FindId; a not-found message becomes
(false, nil), any other error propagates. -/
def Exists (s : StorageState) (dbFail : Option GoError) (id : String) :
    (Bool × Option GoError) × List Event :=
  if !(IsNull id) then
    ((false, some ErrStorageInvalidID), [])
  else
    match dbResult dbFail (findIdResult s id) with
    | .error e =>
        if e.msg = mgoErrNotFound.msg then ((false, none), [.dbFindId id])
        else ((false, some e), [.dbFindId id])
    | .ok _ => ((true, none), [.dbFindId id])

/-- Update: validates, stamps the modification time on the image the
caller passed (the third component of the result is that image as the
caller sees it afterwards), then UpdateId on the dereferenced identifier.
A none result models a Go panic: a nil image pointer or a nil identifier
pointer. -/
def Update (s : StorageState) (dbFail : Option GoError) (now : Nat)
    (imagePtr : Option SoftwareImage) :
    Option ((Bool × Option GoError) × StorageState × SoftwareImage × List Event) :=
  match imagePtr with
  | none => none
  | some image =>
    match Validate image with
    | some e => some ((false, some e), s, image, [.validateCall])
    | none =>
      let image2 := SetModified image now
      match image2.id with
      | none => none
      | some theId =>
        match dbResult dbFail (updateIdResult s theId image2) with
        | .error e =>
            if e.msg = mgoErrNotFound.msg then
              some ((false, none), s, image2, [.validateCall, .dbUpdateId theId image2])
            else
              some ((false, some e), s, image2, [.validateCall, .dbUpdateId theId image2])
        | .ok s2 => some ((true, none), s2, image2, [.validateCall, .dbUpdateId theId image2])

/-- FindImageByApplicationAndModel: guards on version and model, then the
natural-key query; a not-found message becomes (nil, nil), any other
error propagates. -/
def FindImageByApplicationAndModel (s : StorageState) (dbFail : Option GoError)
    (version model : String) :
    Except GoError (Option SoftwareImage) × List Event :=
  if !(IsNull version) then
    (.error ErrStorageInvalidVersion, [])
  else if !(IsNull model) then
    (.error ErrStorageInvalidModel, [])
  else
    match dbResult dbFail (findNameModelResult s version model) with
    | .error e =>
        if e.msg = mgoErrNotFound.msg then (.ok none, [.dbFind version model])
        else (.error e, [.dbFind version model])
    | .ok d => (.ok (some d), [.dbFind version model])

/-- Insert: nil guard, validation, then the collection insert; every
database error propagates unchanged. -/
def Insert (s : StorageState) (dbFail : Option GoError)
    (imagePtr : Option SoftwareImage) :
    Option GoError × StorageState × List Event :=
  match imagePtr with
  | none => (some ErrStorageInvalidImage, s, [])
  | some image =>
    match Validate image with
    | some e => (some e, s, [.validateCall])
    | none =>
      match dbResult dbFail (insertResult s image) with
      | .error e => (some e, s, [.validateCall, .dbInsert image])
      | .ok s2 => (none, s2, [.validateCall, .dbInsert image])

/-- FindByID: guard on the id, then FindId; a not-found message becomes
(nil, nil), any other error propagates. -/
def FindByID (s : StorageState) (dbFail : Option GoError) (id : String) :
    Except GoError (Option SoftwareImage) × List Event :=
  if !(IsNull id) then
    (.error ErrStorageInvalidID, [])
  else
    match dbResult dbFail (findIdResult s id) with
    | .error e =>
        if e.msg = mgoErrNotFound.msg then (.ok none, [.dbFindId id])
        else (.error e, [.dbFindId id])
    | .ok d => (.ok (some d), [.dbFindId id])

/-- Delete: guard on the id, then RemoveId; a not-found message becomes a
nil error, any other error propagates. -/
def Delete (s : StorageState) (dbFail : Option GoError) (id : String) :
    Option GoError × StorageState × List Event :=
  if !(IsNull id) then
    (some ErrStorageInvalidID, s, [])
  else
    match dbResult dbFail (removeIdResult s id) with
    | .error e =>
        if e.msg = mgoErrNotFound.msg then (none, s, [.dbRemoveId id])
        else (some e, s, [.dbRemoveId id])
    | .ok s2 => (none, s2, [.dbRemoveId id])

/-- FindAll: lists all documents; a not-found message yields the still-nil
slice with a nil error, any other error propagates. -/
def FindAll (s : StorageState) (dbFail : Option GoError) :
    Except GoError (List SoftwareImage) × List Event :=
  match dbResult dbFail (.ok s.images) with
  | .error e =>
      if e.msg = mgoErrNotFound.msg then (.ok [], [.dbFindAll])
      else (.error e, [.dbFindAll])
  | .ok l => (.ok l, [.dbFindAll])

/-- True when no database event occurs before the first validation call of
the trace. -/
def noDbBeforeValidate : List Event → Bool
  | [] => true
  | .validateCall :: _ => true
  | e :: rest => if e.isDb then false else noDbBeforeValidate rest

/-- C1: the claim fails on the code: the guard is inverted. FindByID on
the non-empty id "nonexistent", absent from an empty storage, returns
(nil, ErrStorageInvalidID) with no database call, where the claim expects
(nil, nil); FindByID on the empty id passes the guard, issues the
database call, and returns (nil, nil), where the claim expects
(nil, InvalidID) before any database call. -/
theorem C1_code_behavior :
    FindByID ⟨[], []⟩ none "nonexistent" = (.error ErrStorageInvalidID, []) ∧
    FindByID ⟨[], []⟩ none "" = (.ok none, [.dbFindId ""]) :=
  ⟨rfl, rfl⟩

/-- C2: the claim fails on the code: the guards are inverted.
FindImageByApplicationAndModel with both arguments non-empty returns
(nil, ErrStorageInvalidVersion), where the claim expects the matching
record or (nil, nil); with an empty version and a non-empty model it
returns (nil, ErrStorageInvalidModel), where the claim expects
(nil, InvalidVersion) for the empty version. -/
theorem C2_code_behavior :
    FindImageByApplicationAndModel ⟨[], []⟩ none "app1:v1.0" "model1"
      = (.error ErrStorageInvalidVersion, []) ∧
    FindImageByApplicationAndModel ⟨[], []⟩ none "" "model1"
      = (.error ErrStorageInvalidModel, []) :=
  ⟨rfl, rfl⟩

/-- C3: the claim fails on the code: the guard is inverted. Delete on the
non-empty id "absent", not present in an empty storage, returns
ErrStorageInvalidID, where the claim expects no error on every such call;
Delete on the empty id passes the guard, issues the database call, and
returns no error, where the claim expects InvalidID exactly for the empty
id. -/
theorem C3_code_behavior :
    Delete ⟨[], []⟩ none "absent" = (some ErrStorageInvalidID, ⟨[], []⟩, []) ∧
    Delete ⟨[], []⟩ none "" = (none, ⟨[], []⟩, [.dbRemoveId ""]) :=
  ⟨rfl, rfl⟩

/-- C8: IndexStorage ensures the single named unique composite index over
exactly the softwareimageconstructor.name and softwareimageconstructor.model
fields, built with Background false; a failure of the round trip is
returned to the caller unchanged; when the index is already ensured the
run is a no-op returning nil, and after a successful run the index is
present. -/
theorem C8_index_storage (s : StorageState) (e : GoError) :
    uniqueNameVersionIndex.key
      = [StorageKeySoftwareImageName, StorageKeySoftwareImageModel] ∧
    uniqueNameVersionIndex.unique = true ∧
    uniqueNameVersionIndex.background = false ∧
    uniqueNameVersionIndex.name = IndexUniqeNameVersionStr ∧
    IndexStorage s (some e) = (some e, s, [.dbEnsureIndex uniqueNameVersionIndex]) ∧
    (uniqueNameVersionIndex ∈ s.indexes →
      IndexStorage s none = (none, s, [.dbEnsureIndex uniqueNameVersionIndex])) ∧
    (IndexStorage s none).2.2 = [.dbEnsureIndex uniqueNameVersionIndex] ∧
    uniqueNameVersionIndex ∈ ((IndexStorage s none).2.1).indexes := by
  refine ⟨rfl, rfl, rfl, rfl, rfl, ?_, ?_, ?_⟩
  · intro h
    simp [IndexStorage, dbResult, ensureIndexResult, h]
  · by_cases h : uniqueNameVersionIndex ∈ s.indexes <;>
      simp [IndexStorage, dbResult, ensureIndexResult, h]
  · by_cases h : uniqueNameVersionIndex ∈ s.indexes <;>
      simp [IndexStorage, dbResult, ensureIndexResult, h]

/-- C8 witness: the theorem applied at a concrete state that already holds
the index and at a concrete error. -/
theorem C8_index_storage_witness :
    IndexStorage ⟨[], [uniqueNameVersionIndex]⟩ none
      = (none, ⟨[], [uniqueNameVersionIndex]⟩, [.dbEnsureIndex uniqueNameVersionIndex]) :=
  (C8_index_storage ⟨[], [uniqueNameVersionIndex]⟩ ⟨"boom"⟩).2.2.2.2.2.1
    (by simp)

/-- C4: Update on an existing id with valid data and no infrastructure
failure returns (true, nil) and the stored record carries a modification
timestamp at least the time of the call; Update on a non-existent id
returns (false, nil) with no error. -/
theorem C4_update_semantics (s : StorageState) (now : Nat) (image : SoftwareImage)
    (i : String) (hv : Validate image = none) (hid : image.id = some i) :
    (s.images.any (fun d => d.id == some i) = true →
      ∃ s2, Update s none now (some image)
          = some ((true, none), s2, SetModified image now,
              [.validateCall, .dbUpdateId i (SetModified image now)]) ∧
        ∃ d ∈ s2.images, d.id = some i ∧ ∃ t, d.modified = some t ∧ now ≤ t) ∧
    (s.images.any (fun d => d.id == some i) = false →
      Update s none now (some image)
        = some ((false, none), s, SetModified image now,
            [.validateCall, .dbUpdateId i (SetModified image now)])) := by
  have hid2 : (SetModified image now).id = some i := by
    simp [SetModified, hid]
  constructor
  · intro h
    refine ⟨{ s with images := s.images.map (fun d =>
        if d.id == some i then { SetModified image now with id := some i } else d) },
      ?_, ?_⟩
    · simp [Update, hv, hid2, dbResult, updateIdResult, h]
    · rcases List.any_eq_true.mp h with ⟨d0, hd0, hd0i⟩
      exact ⟨{ SetModified image now with id := some i },
        List.mem_map.mpr ⟨d0, hd0, by simp [hd0i]⟩,
        rfl, now, rfl, le_rfl⟩
  · intro h
    simp [Update, hv, hid2, dbResult, updateIdResult, h, mgoErrNotFound]

/-- C4 witness: a concrete storage holding the record with id a, updated
at time 7. -/
theorem C4_update_semantics_witness :
    ∃ s2, Update ⟨[⟨some "a", ⟨"app1:v1", "m1"⟩, none⟩], []⟩ none 7
        (some ⟨some "a", ⟨"app1:v2", "m1"⟩, none⟩)
      = some ((true, none), s2, SetModified ⟨some "a", ⟨"app1:v2", "m1"⟩, none⟩ 7,
          [.validateCall, .dbUpdateId "a" (SetModified ⟨some "a", ⟨"app1:v2", "m1"⟩, none⟩ 7)]) ∧
      ∃ d ∈ s2.images, d.id = some "a" ∧ ∃ t, d.modified = some t ∧ 7 ≤ t :=
  (C4_update_semantics ⟨[⟨some "a", ⟨"app1:v1", "m1"⟩, none⟩], []⟩ 7
    ⟨some "a", ⟨"app1:v2", "m1"⟩, none⟩ "a" rfl rfl).1 (by decide)

/-- C5: Insert of a nil image returns ErrStorageInvalidImage with the
state unchanged and no validation or database event; Insert of an image
failing Validate returns exactly the validation error with the state
unchanged and no database event, and a subsequent FindAll returns the
untouched prior contents, so it does not include the rejected record. -/
theorem C5_insert_validation_gate (s : StorageState) (dbFail : Option GoError) :
    Insert s dbFail none = (some ErrStorageInvalidImage, s, []) ∧
    (∀ image e, Validate image = some e →
      Insert s dbFail (some image) = (some e, s, [.validateCall]) ∧
      FindAll (Insert s dbFail (some image)).2.1 none = (.ok s.images, [.dbFindAll]) ∧
      (image ∉ s.images →
        ∀ l, (FindAll (Insert s dbFail (some image)).2.1 none).1 = .ok l →
          image ∉ l)) := by
  refine ⟨rfl, ?_⟩
  intro image e he
  have h1 : Insert s dbFail (some image) = (some e, s, [.validateCall]) := by
    simp [Insert, he]
  refine ⟨h1, ?_, ?_⟩
  · rw [h1]
    rfl
  · intro hni l hl
    rw [h1] at hl
    have h2 : s.images = l := Except.ok.inj hl
    rwa [← h2]

/-- C5 witness: inserting an image with an empty name into empty storage
is rejected by validation, the state is unchanged, and FindAll afterwards
lists nothing. -/
theorem C5_insert_validation_gate_witness :
    Insert ⟨[], []⟩ none (some ⟨none, ⟨"", "m1"⟩, none⟩)
      = (some ⟨"name: non zero value required"⟩, ⟨[], []⟩, [.validateCall]) ∧
    FindAll (Insert ⟨[], []⟩ none (some ⟨none, ⟨"", "m1"⟩, none⟩)).2.1 none
      = (.ok [], [.dbFindAll]) := by
  have h := (C5_insert_validation_gate ⟨[], []⟩ none).2
    ⟨none, ⟨"", "m1"⟩, none⟩ ⟨"name: non zero value required"⟩ rfl
  exact ⟨h.1, h.2.1⟩

/-- C6: in both write operations no database event ever occurs before the
validation call in the trace, and when Validate fails the trace holds no
database event at all, so an entity failing validation is never the
subject of a database operation. -/
theorem C6_validate_before_db (s : StorageState) (dbFail : Option GoError)
    (now : Nat) (imagePtr : Option SoftwareImage) :
    noDbBeforeValidate (Insert s dbFail imagePtr).2.2 = true ∧
    (∀ image e, imagePtr = some image → Validate image = some e →
      (Insert s dbFail imagePtr).2.2.filter Event.isDb = []) ∧
    (∀ r, Update s dbFail now imagePtr = some r →
      noDbBeforeValidate r.2.2.2 = true ∧
      (∀ image e, imagePtr = some image → Validate image = some e →
        r.2.2.2.filter Event.isDb = [])) := by
  refine ⟨?_, ?_, ?_⟩
  · cases imagePtr with
    | none => rfl
    | some image =>
      cases hv : Validate image with
      | some e => simp [Insert, hv, noDbBeforeValidate]
      | none =>
        simp only [Insert, hv]
        split <;> rfl
  · intro image e hp hv
    subst hp
    simp [Insert, hv, Event.isDb]
  · intro r hr
    cases imagePtr with
    | none => simp [Update] at hr
    | some image =>
      cases hv : Validate image with
      | some e =>
        simp only [Update, hv] at hr
        cases Option.some.inj hr
        refine ⟨rfl, ?_⟩
        intro image2 e2 hp hv2
        rfl
      | none =>
        cases hi : image.id with
        | none =>
          have hid2 : (SetModified image now).id = none := by simp [SetModified, hi]
          simp only [Update, hv, hid2] at hr
          cases hr
        | some i =>
          have hid2 : (SetModified image now).id = some i := by simp [SetModified, hi]
          simp only [Update, hv, hid2] at hr
          have hfalse : ∀ image2 e2, some image = some image2 →
              Validate image2 = some e2 → False := by
            intro image2 e2 hp hv2
            cases Option.some.inj hp
            rw [hv] at hv2
            cases hv2
          split at hr
          · split at hr <;>
              (cases Option.some.inj hr
               exact ⟨rfl, fun image2 e2 hp hv2 => absurd (hfalse image2 e2 hp hv2) id⟩)
          · cases Option.some.inj hr
            exact ⟨rfl, fun image2 e2 hp hv2 => absurd (hfalse image2 e2 hp hv2) id⟩

/-- C6 witness: the theorem at a concrete image failing validation and at
a concrete successful update. -/
theorem C6_validate_before_db_witness :
    (Insert ⟨[], []⟩ none (some ⟨none, ⟨"", "m1"⟩, none⟩)).2.2.filter Event.isDb = [] :=
  (C6_validate_before_db ⟨[], []⟩ none 0 (some ⟨none, ⟨"", "m1"⟩, none⟩)).2.1
    ⟨none, ⟨"", "m1"⟩, none⟩ ⟨"name: non zero value required"⟩ rfl rfl

/-- C9: Update leaves the image the caller passed untouched exactly when
validation fails; on every other completed path, including the
record-absent (false, nil) result and a database error, the image the
caller holds afterwards is the passed image with its modification
timestamp set to the time of the call. -/
theorem C9_update_mutates_caller (s : StorageState) (dbFail : Option GoError)
    (now : Nat) (image : SoftwareImage) :
    (∀ e, Validate image = some e →
      Update s dbFail now (some image)
        = some ((false, some e), s, image, [.validateCall])) ∧
    (Validate image = none → ∀ i, image.id = some i →
      ∀ r, Update s dbFail now (some image) = some r →
        r.2.2.1 = SetModified image now ∧ r.2.2.1.modified = some now) := by
  constructor
  · intro e he
    simp [Update, he]
  · intro hv i hid r hr
    have hid2 : (SetModified image now).id = some i := by simp [SetModified, hid]
    simp only [Update, hv, hid2] at hr
    split at hr
    · split at hr <;>
        (cases Option.some.inj hr
         exact ⟨rfl, by simp [SetModified]⟩)
    · cases Option.some.inj hr
      exact ⟨rfl, by simp [SetModified]⟩

/-- C9 witness: updating a record absent from empty storage returns
(false, nil) yet the image held by the caller now carries the call
timestamp. -/
theorem C9_update_mutates_caller_witness :
    (((false, none), (⟨[], []⟩ : StorageState),
        SetModified ⟨some "a", ⟨"app1:v1", "m1"⟩, none⟩ 7,
        [Event.validateCall,
          Event.dbUpdateId "a" (SetModified ⟨some "a", ⟨"app1:v1", "m1"⟩, none⟩ 7)]) :
      (Bool × Option GoError) × StorageState × SoftwareImage × List Event).2.2.1.modified
      = some 7 :=
  ((C9_update_mutates_caller ⟨[], []⟩ none 7 ⟨some "a", ⟨"app1:v1", "m1"⟩, none⟩).2
    rfl "a" rfl _ rfl).2

/-- C7: with an injected infrastructure error on the round trip, every
operation returns that error unchanged when its message differs from the
not-found message; when the message equals the not-found message, the
operations with a not-found branch translate it into the empty or zero
result (nil record, false boolean, nil error, or the nil slice), while
Insert and IndexStorage still propagate it unchanged. The match is on the
message text alone, so it applies exactly to errors whose message equals
that of mgo.ErrNotFound. -/
theorem C7_error_translation (s : StorageState) (now : Nat)
    (image : SoftwareImage) (i : String) (e : GoError)
    (hv : Validate image = none) (hid : image.id = some i) :
    (e.msg ≠ mgoErrNotFound.msg →
      Exists s (some e) "" = ((false, some e), [.dbFindId ""]) ∧
      FindByID s (some e) "" = (.error e, [.dbFindId ""]) ∧
      Delete s (some e) "" = (some e, s, [.dbRemoveId ""]) ∧
      FindImageByApplicationAndModel s (some e) "" "" = (.error e, [.dbFind "" ""]) ∧
      FindAll s (some e) = (.error e, [.dbFindAll]) ∧
      IndexStorage s (some e) = (some e, s, [.dbEnsureIndex uniqueNameVersionIndex]) ∧
      Insert s (some e) (some image) = (some e, s, [.validateCall, .dbInsert image]) ∧
      Update s (some e) now (some image)
        = some ((false, some e), s, SetModified image now,
            [.validateCall, .dbUpdateId i (SetModified image now)])) ∧
    (e.msg = mgoErrNotFound.msg →
      Exists s (some e) "" = ((false, none), [.dbFindId ""]) ∧
      FindByID s (some e) "" = (.ok none, [.dbFindId ""]) ∧
      Delete s (some e) "" = (none, s, [.dbRemoveId ""]) ∧
      FindImageByApplicationAndModel s (some e) "" "" = (.ok none, [.dbFind "" ""]) ∧
      FindAll s (some e) = (.ok [], [.dbFindAll]) ∧
      IndexStorage s (some e) = (some e, s, [.dbEnsureIndex uniqueNameVersionIndex]) ∧
      Insert s (some e) (some image) = (some e, s, [.validateCall, .dbInsert image]) ∧
      Update s (some e) now (some image)
        = some ((false, none), s, SetModified image now,
            [.validateCall, .dbUpdateId i (SetModified image now)])) := by
  have hid2 : (SetModified image now).id = some i := by
    simp [SetModified, hid]
  have hes : "".isEmpty = true := rfl
  constructor
  · intro h
    refine ⟨?_, ?_, ?_, ?_, ?_, rfl, ?_, ?_⟩
    · simp [Exists, IsNull, dbResult, h, hes]
    · simp [FindByID, IsNull, dbResult, h, hes]
    · simp [Delete, IsNull, dbResult, h, hes]
    · simp [FindImageByApplicationAndModel, IsNull, dbResult, h, hes]
    · simp [FindAll, dbResult, h]
    · simp [Insert, hv, dbResult]
    · simp [Update, hv, hid2, dbResult, h]
  · intro h
    refine ⟨?_, ?_, ?_, ?_, ?_, rfl, ?_, ?_⟩
    · simp [Exists, IsNull, dbResult, h, hes]
    · simp [FindByID, IsNull, dbResult, h, hes]
    · simp [Delete, IsNull, dbResult, h, hes]
    · simp [FindImageByApplicationAndModel, IsNull, dbResult, h, hes]
    · simp [FindAll, dbResult, h]
    · simp [Insert, hv, dbResult]
    · simp [Update, hv, hid2, dbResult, h]

/-- C7 witness: a connection error propagates unchanged out of FindAll and
out of Insert of a valid image, and an injected error carrying exactly the
not-found message is absorbed by FindAll into the nil slice. -/
theorem C7_error_translation_witness :
    FindAll ⟨[], []⟩ (some ⟨"connection reset"⟩)
      = (.error ⟨"connection reset"⟩, [.dbFindAll]) ∧
    Insert ⟨[], []⟩ (some ⟨"connection reset"⟩)
        (some ⟨some "a", ⟨"app1:v1", "m1"⟩, none⟩)
      = (some ⟨"connection reset"⟩, ⟨[], []⟩,
          [.validateCall, .dbInsert ⟨some "a", ⟨"app1:v1", "m1"⟩, none⟩]) ∧
    FindAll ⟨[], []⟩ (some ⟨"not found"⟩) = (.ok [], [.dbFindAll]) := by
  have h1 := (C7_error_translation ⟨[], []⟩ 0 ⟨some "a", ⟨"app1:v1", "m1"⟩, none⟩
    "a" ⟨"connection reset"⟩ rfl rfl).1 (by decide)
  have h2 := (C7_error_translation ⟨[], []⟩ 0 ⟨some "a", ⟨"app1:v1", "m1"⟩, none⟩
    "a" ⟨"not found"⟩ rfl rfl).2 rfl
  exact ⟨h1.2.2.2.2.1, h1.2.2.2.2.2.2.1, h2.2.2.2.2.1⟩

/-- Validation errors are never the invalid-image error: the Validate
messages name the failing field. -/
theorem Validate_error_ne_invalid_image (image : SoftwareImage) (e : GoError)
    (h : Validate image = some e) : e ≠ ErrStorageInvalidImage := by
  unfold Validate at h
  split at h
  · cases Option.some.inj h
    decide
  · split at h
    · cases Option.some.inj h
      decide
    · cases h

/-- C10: Update never produces ErrStorageInvalidImage on its own (with no
injected infrastructure failure, every error it returns is impossible to
be the invalid-image error); its trace on a non-nil image always starts
with the validation call; it completes without panic for every non-nil
image whose identifier pointer is non-nil, whatever the database does; a
nil image panics, and a non-nil image passing validation with a nil
identifier pointer panics, so panic-freedom needs both pointers non-nil. -/
theorem C10_update_no_nil_guard :
    (∀ (s : StorageState) (now : Nat) (imagePtr : Option SoftwareImage) r,
      Update s none now imagePtr = some r → r.1.2 ≠ some ErrStorageInvalidImage) ∧
    (∀ (s : StorageState) (dbFail : Option GoError) (now : Nat)
        (image : SoftwareImage) r,
      Update s dbFail now (some image) = some r →
        r.2.2.2.head? = some .validateCall) ∧
    (∀ (s : StorageState) (dbFail : Option GoError) (now : Nat)
        (image : SoftwareImage),
      image.id.isSome = true → (Update s dbFail now (some image)).isSome = true) ∧
    (∀ (s : StorageState) (dbFail : Option GoError) (now : Nat),
      Update s dbFail now none = none) ∧
    Update ⟨[], []⟩ none 0 (some ⟨none, ⟨"app1:v1", "m1"⟩, none⟩) = none := by
  refine ⟨?_, ?_, ?_, ?_, rfl⟩
  · intro s now imagePtr r hr
    cases imagePtr with
    | none => cases hr
    | some image =>
      cases hv : Validate image with
      | some e =>
        simp only [Update, hv] at hr
        cases Option.some.inj hr
        simpa using Validate_error_ne_invalid_image image e hv
      | none =>
        cases hi : image.id with
        | none =>
          have hid2 : (SetModified image now).id = none := by simp [SetModified, hi]
          simp only [Update, hv, hid2] at hr
          cases hr
        | some i =>
          have hid2 : (SetModified image now).id = some i := by simp [SetModified, hi]
          simp only [Update, hv, hid2, dbResult] at hr
          split at hr
          · next e heq =>
            have he : e = mgoErrNotFound := by
              unfold updateIdResult at heq
              split at heq
              · cases heq
              · exact (Except.error.inj heq).symm
            subst he
            rw [if_pos rfl] at hr
            cases Option.some.inj hr
            simp
          · cases Option.some.inj hr
            simp
  · intro s dbFail now image r hr
    cases hv : Validate image with
    | some e =>
      simp only [Update, hv] at hr
      cases Option.some.inj hr
      rfl
    | none =>
      cases hi : image.id with
      | none =>
        have hid2 : (SetModified image now).id = none := by simp [SetModified, hi]
        simp only [Update, hv, hid2] at hr
        cases hr
      | some i =>
        have hid2 : (SetModified image now).id = some i := by simp [SetModified, hi]
        simp only [Update, hv, hid2] at hr
        split at hr
        · split at hr <;> (cases Option.some.inj hr; rfl)
        · cases Option.some.inj hr
          rfl
  · intro s dbFail now image hid
    cases hv : Validate image with
    | some e => simp [Update, hv]
    | none =>
      cases hi : image.id with
      | none => simp [hi] at hid
      | some i =>
        have hid2 : (SetModified image now).id = some i := by simp [SetModified, hi]
        simp only [Update, hv, hid2]
        split
        · split <;> simp
        · simp
  · intro s dbFail now
    rfl

/-- C10 witness: the panic-free clause at a concrete non-nil image with a
non-nil identifier against a failing database. -/
theorem C10_update_no_nil_guard_witness :
    (Update ⟨[], []⟩ (some ⟨"connection reset"⟩) 3
      (some ⟨some "a", ⟨"app1:v1", "m1"⟩, none⟩)).isSome = true :=
  C10_update_no_nil_guard.2.2.1 ⟨[], []⟩ (some ⟨"connection reset"⟩) 3
    ⟨some "a", ⟨"app1:v1", "m1"⟩, none⟩ rfl

end Images
